import Mathlib

/-!
Verification development for the Gulf water-quality analysis pipeline.

Shallow embedding of the repository code:
* `src/main.py` — `_safe_tag`, `filter_results`, `create_chart`, `fetch_API`
  path derivation, and `search`;
* `src/web_server.py` — the shared `analysis_state` record,
  `update_analysis_status`, `run_analysis` and the `/analyze` handler.

Machine integers do not occur; measured values are modelled as rationals,
timestamps as integers (calendar dates parse to a linearly ordered value).
External effects (HTTP, pandas, plotly, Chroma) are modelled by explicit
data: a row already carries the outcome of numeric coercion as `Option ℚ`,
the file system is a list of path strings, and the vector-store build
effect is a counter threaded through `search`.
-/

namespace Gulf

/-! ### Sanitisation (`_safe_tag`, main.py lines 11-16) -/

/-- The character class of the regex `[\\/:*?"<>|]+` in `_BAD`. -/
def badChars : List Char := ['\\', '/', ':', '*', '?', '"', '<', '>', '|']

def isBadChar (c : Char) : Bool := badChars.contains c

/-- ASCII whitespace matched by the regex `\s` (Python also matches further
Unicode whitespace; the claims only involve ASCII names). -/
def pySpaceChars : List Char := [' ', '\t', '\n', '\r', '\x0b', '\x0c']

def isPySpace (c : Char) : Bool := pySpaceChars.contains c

/-- Replace every maximal run of characters satisfying `p` by the single
character `r` — the effect of `re.sub` with a `+`-quantified class. -/
def collapseRuns (p : Char → Bool) (r : Char) : List Char → List Char
  | [] => []
  | [c] => if p c then [r] else [c]
  | c :: d :: rest =>
    if p c then
      if p d then collapseRuns p r (d :: rest)
      else r :: collapseRuns p r (d :: rest)
    else c :: collapseRuns p r (d :: rest)

/-- Python `str.strip(chars)`: remove the given characters from both ends. -/
def stripEnds (cs : List Char) (l : List Char) : List Char :=
  ((l.dropWhile fun c => cs.contains c).reverse.dropWhile fun c =>
    cs.contains c).reverse

/-- `_safe_tag` (main.py lines 12-16): substitute `_` for runs of special
path characters, then for runs of whitespace, strip `.` and `_` from both
ends, truncate to 80 characters, and fall back to `"value"` when empty. -/
def safe_tag (name : String) : String :=
  let s1 := collapseRuns isBadChar '_' name.data
  let s2 := collapseRuns isPySpace '_' s1
  let s3 := (stripEnds ['.', '_'] s2).take 80
  if s3.isEmpty then "value" else String.mk s3

/-- Raw-payload path derived by `fetch_API` (main.py lines 131-136):
`ResponseData/result_<safe>.csv` under the working directory. -/
def raw_path (name : String) : String :=
  "ResponseData/result_" ++ safe_tag name ++ ".csv"

/-- Chart artifact path derived by `create_chart` (main.py line 111):
`chart_<safe>.html` under the working directory. -/
def chart_path (name : String) : String :=
  "chart_" ++ safe_tag name ++ ".html"

/-! ### Series Filter (`filter_results`, main.py lines 18-47) -/

/-- One record of a raw payload: the two columns the filter projects to,
each possibly missing (`NaN` in the frame). -/
structure RawRow where
  date : Option String
  value : Option String
deriving DecidableEq

/-- `df.dropna(subset=["ActivityStartDate", "ResultMeasureValue"])` after
projecting to those two columns: keep exactly the rows where both fields
are present. -/
def dropMissing (rows : List RawRow) : List (String × String) :=
  rows.filterMap fun r =>
    match r.date, r.value with
    | some d, some v => some (d, v)
    | _, _ => none

/-- `filter_results` (main.py lines 18-47): drop rows missing either field;
if at most 3 rows remain, return no output (`None`), otherwise persist and
return the cleaned series. -/
def filter_results (rows : List RawRow) : Option (List (String × String)) :=
  let df := dropMissing rows
  if df.length ≤ 3 then none else some df

/-! ### Chart Emitter (`create_chart`, main.py lines 49-114) -/

/-- One record of a cleaned series as consumed by the Emitter: the parsed
timestamp and the result of `pd.to_numeric(..., errors="coerce")` on the
value field — `none` models `NaN` (the entry was unparseable). -/
abbrev SeriesRow := Int × Option ℚ

/-- The rows surviving `to_numeric` coercion followed by
`dropna(subset=[...])` (main.py lines 65-68). -/
def coerceRows (rows : List SeriesRow) : List (Int × ℚ) :=
  rows.filterMap fun tv => tv.2.map fun q => (tv.1, q)

/-- Comparison used by `df.sort_values("ActivityStartDate")`: order by the
timestamp component. -/
def leByDate (a b : Int × ℚ) : Prop := a.1 ≤ b.1

instance : DecidableRel leByDate := fun a b =>
  inferInstanceAs (Decidable (a.1 ≤ b.1))

instance : IsTotal (Int × ℚ) leByDate := ⟨fun a b => Int.le_total a.1 b.1⟩

instance : IsTrans (Int × ℚ) leByDate := ⟨fun _ _ _ h1 h2 => le_trans h1 h2⟩

/-- `Series.min()` over the value column: `none` models the `NaN` that
pandas returns on an empty column. -/
def minCombine (q : ℚ) : Option ℚ → Option ℚ
  | none => some q
  | some m => some (min q m)

def listMin : List ℚ → Option ℚ
  | [] => none
  | q :: rest => minCombine q (listMin rest)

/-- `Series.max()` over the value column, `none` on an empty column. -/
def maxCombine (q : ℚ) : Option ℚ → Option ℚ
  | none => some q
  | some m => some (max q m)

def listMax : List ℚ → Option ℚ
  | [] => none
  | q :: rest => maxCombine q (listMax rest)

/-- The chart artifact written by `fig.write_html`: the series handed to
the renderer and the pinned y-axis range (main.py lines 85-108). -/
structure Chart where
  series : List (Int × ℚ)
  yMin : Option ℚ
  yMax : Option ℚ
deriving DecidableEq

/-- `create_chart` (main.py lines 49-114): return early when the input
file does not exist; otherwise coerce the value column, drop failed rows,
sort ascending by timestamp, pin the y-axis to the observed min/max and
write the artifact `chart_<safe>.html`.  The code never deletes
`input_path` and performs no emptiness check before rendering.  The file
system is a list of paths; writing prepends the artifact path. -/
def create_chart (characteristicName : String) (input_path : String)
    (files : List String) (rows : List SeriesRow) :
    Option Chart × List String :=
  if input_path ∈ files then
    let df := coerceRows rows
    let sorted := List.insertionSort leByDate df
    let c : Chart :=
      ⟨sorted, listMin (sorted.map Prod.snd), listMax (sorted.map Prod.snd)⟩
    (some c, chart_path characteristicName :: files)
  else (none, files)

/-! ### Semantic Retriever (`search`, main.py lines 149-190) -/

/-- Environment of `search`: the catalog (`values_filtered.json`), the
exclusion list (`invalid.txt`), and the external similarity-search
capability (`vectorstore.similarity_search`), a black box mapping the
scene and the indexed values to a ranked result list. -/
structure RetrieverEnv where
  catalog : List String
  invalid : List String
  rank : String → List String → List String

/-- `search` (main.py lines 149-190) with the vector-store build effect
made explicit: `builds` counts how many times `Chroma.from_texts` has run
in this process.  The code calls `Chroma.from_texts` unconditionally on
every invocation, after the two assertions on the value lists. -/
def search (env : RetrieverEnv) (scene : String) (builds : ℕ) :
    Except String (List String) × ℕ :=
  if env.catalog.isEmpty then
    (.error "values_filtered.json has no codes or is empty", builds)
  else
    let values := env.catalog.filter fun v => !(env.invalid.contains v)
    if values.isEmpty then
      (.error "No valid values remaining after filtering", builds)
    else
      (.ok (env.rank scene values), builds + 1)

/-! ### Job State Machine (`web_server.py`) -/

inductive JobStatus where
  | idle
  | running
  | completed
  | error
deriving DecidableEq

/-- The process-wide `analysis_state` record (web_server.py lines 13-21).
Progress is a rational: the Python floats in `run_analysis` are exact
fractions of small integers. -/
structure JobState where
  status : JobStatus
  message : String
  progress : ℚ
  total_characteristics : ℕ
  completed_charts : ℕ
  current_scenario : String
  error_message : String
deriving DecidableEq

/-- The values installed by `reset_analysis_state` (web_server.py lines
23-34), which coincide with the module-level initialiser. -/
def initial_state : JobState :=
  ⟨.idle, "Ready to analyze", 0, 0, 0, "", ""⟩

/-- `reset_analysis_state` (web_server.py lines 23-34): overwrite every
field with its initial value. -/
def reset_analysis_state (_st : JobState) : JobState := initial_state

/-- `update_analysis_status` (web_server.py lines 36-49): apply exactly
the fields that were passed.  At every call site the status and message
arguments, when passed, are non-empty, so Python truthiness coincides
with presence. -/
def update_analysis_status (st : JobState) (status : Option JobStatus)
    (message : Option String) (progress : Option ℚ)
    (total_characteristics : Option ℕ) (completed_charts : Option ℕ) :
    JobState :=
  { st with
    status := status.getD st.status
    message := message.getD st.message
    progress := progress.getD st.progress
    total_characteristics :=
      total_characteristics.getD st.total_characteristics
    completed_charts := completed_charts.getD st.completed_charts }

/-- Python `str.strip()` on the scenario text (ASCII whitespace; the
claims only involve ASCII scenarios). -/
def pyStrip (s : String) : String :=
  String.mk (stripEnds pySpaceChars s.data)

/-- Responses of the `/analyze` handler (web_server.py lines 126-149):
the two 400 rejections and the 200 acceptance. -/
inductive AnalyzeResponse where
  | alreadyRunning
  | noScenario
  | started (scenario : String)
deriving DecidableEq

/-- The `/analyze` handler `analyze` (web_server.py lines 126-149).  The
request body is an optional scenario string; the returned Bool records
whether a background thread running `run_analysis` was started.  Note the
handler itself leaves `status` at `idle` after a successful start: the
background thread is the one that sets `running`. -/
def analyze (st : JobState) (body : Option String) :
    AnalyzeResponse × JobState × Bool :=
  if st.status = .running then (.alreadyRunning, st, false)
  else
    let scenario := pyStrip (body.getD "")
    if scenario = "" then (.noScenario, st, false)
    else
      (.started scenario,
       { reset_analysis_state st with current_scenario := scenario },
       true)

/-! ### Orchestrator (`run_analysis`, web_server.py lines 51-119)

Per-candidate effects are modelled by an outcome datum saying where that
candidate's processing stopped; the inner `try/except` of the loop turns
every exception into a `continue`, so each outcome determines exactly
which status updates run for that candidate. -/

/-- Where a candidate's three stages stop.  `fetchEmpty` is `fetch_API`
returning `""` (non-200); the `Raises` outcomes are exceptions caught by
the per-candidate handler; `ok` is full success. -/
inductive CandOutcome where
  | fetchEmpty
  | fetchRaises
  | filterNone
  | filterRaises
  | chartRaises
  | ok
deriving DecidableEq

/-- Progress written before fetching candidate `i` of `n`
(web_server.py line 73): `15 + i*80/n/3`. -/
def stage1Progress (n i : ℕ) : ℚ := 15 + (i : ℚ) * 80 / n / 3

/-- Progress written before filtering (line 83):
`15 + (i*80/n/3 + 80/n/3)`. -/
def stage2Progress (n i : ℕ) : ℚ :=
  15 + ((i : ℚ) * 80 / n / 3 + 80 / n / 3)

/-- Progress written before charting (line 93):
`15 + (i*80/n/3 + 2*80/n/3)`. -/
def stage3Progress (n i : ℕ) : ℚ :=
  15 + ((i : ℚ) * 80 / n / 3 + 2 * 80 / n / 3)

/-- Progress written after a candidate fully succeeds (line 101):
`15 + (i+1)*80/n`. -/
def candDoneProgress (n i : ℕ) : ℚ := 15 + ((i : ℚ) + 1) * 80 / n

/-- The body of the per-candidate loop (web_server.py lines 68-106),
threading the job state and the `completed` counter. -/
def processCand (n : ℕ) (acc : JobState × ℕ)
    (ic : ℕ × String × CandOutcome) : JobState × ℕ :=
  match ic with
  | (i, name, outcome) =>
    let st1 := update_analysis_status acc.1 none
      (some ("STEP 1: Fetching data for " ++ name))
      (some (stage1Progress n i)) none none
    match outcome with
    | .fetchEmpty => (st1, acc.2)
    | .fetchRaises => (st1, acc.2)
    | .filterNone =>
      (update_analysis_status st1 none
        (some ("STEP 2: Filtering data for " ++ name))
        (some (stage2Progress n i)) none none, acc.2)
    | .filterRaises =>
      (update_analysis_status st1 none
        (some ("STEP 2: Filtering data for " ++ name))
        (some (stage2Progress n i)) none none, acc.2)
    | .chartRaises =>
      let st2 := update_analysis_status st1 none
        (some ("STEP 2: Filtering data for " ++ name))
        (some (stage2Progress n i)) none none
      (update_analysis_status st2 none
        (some ("STEP 3: Creating chart for " ++ name))
        (some (stage3Progress n i)) none none, acc.2)
    | .ok =>
      let st2 := update_analysis_status st1 none
        (some ("STEP 2: Filtering data for " ++ name))
        (some (stage2Progress n i)) none none
      let st3 := update_analysis_status st2 none
        (some ("STEP 3: Creating chart for " ++ name))
        (some (stage3Progress n i)) none none
      (update_analysis_status st3 none none
        (some (candDoneProgress n i)) none (some (acc.2 + 1)), acc.2 + 1)

/-- `run_analysis` (web_server.py lines 51-119).  Its one input is the
outcome of the Retriever call together with the per-candidate outcomes:
`.error e` models `search` raising an exception whose `str` is `e` (the
only statement inside the outer `try` but outside the per-candidate
`try` that can raise), `.ok cands` the returned candidate list. -/
def run_analysis
    (searchResult : Except String (List (String × CandOutcome)))
    (st : JobState) : JobState :=
  let st0 := update_analysis_status st (some .running)
    (some "Creating chroma value storage...") (some 5) none none
  match searchResult with
  | .error e =>
    update_analysis_status st0 (some .error)
      (some ("Analysis failed: " ++ e)) (some 0) none none
  | .ok cands =>
    let n := cands.length
    let st1 := update_analysis_status st0 none
      (some ("Found " ++ toString n ++ " related characteristics"))
      (some 15) (some n) none
    let res := cands.enum.foldl (processCand n) (st1, 0)
    update_analysis_status res.1 (some .completed)
      (some ("Analysis completed! Generated " ++ toString res.2 ++
        " charts.")) (some 100) none none

/-- The sequence of values written to `analysis_state["progress"]` during
one `run_analysis` call, in program order (the trace of the `progress`
arguments of the `update_analysis_status` calls that pass one). -/
def candUpdates (n : ℕ) (ic : ℕ × String × CandOutcome) : List ℚ :=
  match ic with
  | (i, _, .fetchEmpty) => [stage1Progress n i]
  | (i, _, .fetchRaises) => [stage1Progress n i]
  | (i, _, .filterNone) => [stage1Progress n i, stage2Progress n i]
  | (i, _, .filterRaises) => [stage1Progress n i, stage2Progress n i]
  | (i, _, .chartRaises) =>
    [stage1Progress n i, stage2Progress n i, stage3Progress n i]
  | (i, _, .ok) =>
    [stage1Progress n i, stage2Progress n i, stage3Progress n i,
     candDoneProgress n i]

def progressTrace
    (searchResult : Except String (List (String × CandOutcome))) :
    List ℚ :=
  match searchResult with
  | .error _ => [5, 0]
  | .ok cands =>
    5 :: 15 ::
      ((cands.enum.map (candUpdates cands.length)).flatten ++ [100])

/-! ### Helper lemmas -/

theorem minCombine_left_comm (a b : ℚ) (o : Option ℚ) :
    minCombine a (minCombine b o) = minCombine b (minCombine a o) := by
  cases o <;> simp [minCombine, min_comm, min_left_comm]

theorem listMin_perm {l l' : List ℚ} (h : l.Perm l') :
    listMin l = listMin l' := by
  induction h with
  | nil => rfl
  | cons x _ ih => simp [listMin, ih]
  | swap x y l => simp [listMin, minCombine_left_comm]
  | trans _ _ ih1 ih2 => exact ih1.trans ih2

theorem maxCombine_left_comm (a b : ℚ) (o : Option ℚ) :
    maxCombine a (maxCombine b o) = maxCombine b (maxCombine a o) := by
  cases o <;> simp [maxCombine, max_comm, max_left_comm]

theorem listMax_perm {l l' : List ℚ} (h : l.Perm l') :
    listMax l = listMax l' := by
  induction h with
  | nil => rfl
  | cons x _ ih => simp [listMax, ih]
  | swap x y l => simp [listMax, maxCombine_left_comm]
  | trans _ _ ih1 ih2 => exact ih1.trans ih2

/-! ### Claims -/

/-- C1: `filter_results` produces a cleaned series exactly when strictly
more than 3 rows survive dropping the rows missing either field, and
every cleaned series it produces has length greater than 3. -/
theorem filter_results_length_spec (rows : List RawRow) :
    ((filter_results rows).isSome ↔ 3 < (dropMissing rows).length) ∧
    ∀ s, filter_results rows = some s → 3 < s.length := by
  constructor
  · unfold filter_results
    by_cases h : (dropMissing rows).length ≤ 3
    · simp [h]
    · simp [h]
      omega
  · intro s hs
    unfold filter_results at hs
    by_cases h : (dropMissing rows).length ≤ 3
    · simp [h] at hs
    · simp [h] at hs
      subst hs
      omega

theorem filter_results_length_spec_witness :
    filter_results [⟨some "a", some "1"⟩, ⟨some "b", some "2"⟩,
        ⟨some "c", some "3"⟩, ⟨some "d", some "4"⟩] =
      some [("a", "1"), ("b", "2"), ("c", "3"), ("d", "4")] ∧
    3 < [("a", "1"), ("b", "2"), ("c", "3"), ("d", "4")].length :=
  ⟨by decide,
   (filter_results_length_spec [⟨some "a", some "1"⟩, ⟨some "b", some "2"⟩,
      ⟨some "c", some "3"⟩, ⟨some "d", some "4"⟩]).2 _ (by decide)⟩

/-- C9 counterexample: the sanitisation is not injective — the distinct
characteristic names `"a b"` and `"a_b"` derive the same raw-payload
path, because whitespace collapsing maps the space to the underscore. -/
theorem raw_path_collision :
    ("a b" : String) ≠ "a_b" ∧ raw_path "a b" = raw_path "a_b" := by
  decide

/-- C9 (amended): raw-payload paths are distinct for names whose
sanitised tags differ; names whose tags collide (whitespace versus
underscore, stripped or truncated characters) share one path. -/
theorem raw_path_distinct_of_tag_distinct (n1 n2 : String)
    (h : safe_tag n1 ≠ safe_tag n2) : raw_path n1 ≠ raw_path n2 := by
  intro he
  apply h
  unfold raw_path at he
  have hd := congrArg String.data he
  simp [String.data_append] at hd
  exact String.ext hd

theorem raw_path_distinct_of_tag_distinct_witness :
    safe_tag "pH" ≠ safe_tag "Lead" ∧ raw_path "pH" ≠ raw_path "Lead" :=
  ⟨by decide, raw_path_distinct_of_tag_distinct "pH" "Lead" (by decide)⟩

/-- C2 counterexample: on an input whose single row fails numeric
coercion — so zero rows remain — `create_chart` still renders and writes
the chart artifact instead of failing: the code has no emptiness check
between the `dropna` and `fig.write_html`. -/
theorem create_chart_emits_artifact_on_zero_rows :
    coerceRows [((0 : Int), (none : Option ℚ))] = [] ∧
    ((create_chart "Lead" "f.csv" ["f.csv"]
      [((0 : Int), (none : Option ℚ))]).1).isSome = true ∧
    chart_path "Lead" ∈ (create_chart "Lead" "f.csv" ["f.csv"]
      [((0 : Int), (none : Option ℚ))]).2 := by
  decide

/-- C2 (amended): when zero rows remain after numeric coercion the
Emitter does not treat this as a failure — whenever the input file
exists it still produces a chart artifact, here with an empty series and
undefined (NaN) axis bounds. -/
theorem create_chart_no_emptiness_check (nm p : String)
    (files : List String) (rows : List SeriesRow) (hp : p ∈ files)
    (hz : coerceRows rows = []) :
    (create_chart nm p files rows).1 = some ⟨[], none, none⟩ ∧
    (create_chart nm p files rows).2 = chart_path nm :: files := by
  simp [create_chart, hp, hz, listMin, listMax]

theorem create_chart_no_emptiness_check_witness :
    ("f.csv" ∈ (["f.csv"] : List String)) ∧
    coerceRows [((0 : Int), (none : Option ℚ))] = [] ∧
    (create_chart "Lead" "f.csv" ["f.csv"]
      [((0 : Int), (none : Option ℚ))]).1 = some ⟨[], none, none⟩ :=
  ⟨by decide, by decide,
   (create_chart_no_emptiness_check "Lead" "f.csv" ["f.csv"]
      [((0 : Int), (none : Option ℚ))] (by decide) (by decide)).1⟩

/-- C7 counterexample: a successful Emitter invocation does not delete
the cleaned-series file it consumed — after `create_chart` succeeds on
`filtered.csv`, that file still exists. -/
theorem create_chart_leaves_cleaned_series :
    ((create_chart "pH" "filtered.csv" ["filtered.csv"]
      [((0 : Int), some (1 : ℚ))]).1).isSome = true ∧
    "filtered.csv" ∈ (create_chart "pH" "filtered.csv" ["filtered.csv"]
      [((0 : Int), some (1 : ℚ))]).2 := by
  decide

/-- C7 (amended): the Emitter never deletes its input — the
cleaned-series file passed to `create_chart` still exists after the emit
stage completes (only the raw payload is deleted, by the Filter). -/
theorem create_chart_input_file_persists (nm p : String)
    (files : List String) (rows : List SeriesRow) (hp : p ∈ files) :
    p ∈ (create_chart nm p files rows).2 := by
  simp [create_chart, hp]

theorem create_chart_input_file_persists_witness :
    ("filtered.csv" ∈ (["filtered.csv"] : List String)) ∧
    "filtered.csv" ∈ (create_chart "pH" "filtered.csv" ["filtered.csv"]
      [((0 : Int), some (1 : ℚ))]).2 :=
  ⟨by decide,
   create_chart_input_file_persists "pH" "filtered.csv" ["filtered.csv"]
     [((0 : Int), some (1 : ℚ))] (by decide)⟩

/-- C8: every chart artifact the Emitter produces carries a series that
is a rearrangement of the coerced rows sorted ascending by timestamp,
and its y-axis range is pinned exactly to the minimum and maximum of the
numerically coerced value column of that series. -/
theorem create_chart_sorted_and_pinned (nm p : String)
    (files : List String) (rows : List SeriesRow) (hp : p ∈ files) :
    ∃ c, (create_chart nm p files rows).1 = some c ∧
      c.series.Perm (coerceRows rows) ∧
      List.Sorted leByDate c.series ∧
      c.yMin = listMin ((coerceRows rows).map Prod.snd) ∧
      c.yMax = listMax ((coerceRows rows).map Prod.snd) := by
  refine ⟨⟨List.insertionSort leByDate (coerceRows rows),
    listMin ((List.insertionSort leByDate (coerceRows rows)).map Prod.snd),
    listMax ((List.insertionSort leByDate (coerceRows rows)).map
      Prod.snd)⟩, ?_, ?_, ?_, ?_, ?_⟩
  · simp [create_chart, hp]
  · exact List.perm_insertionSort leByDate (coerceRows rows)
  · exact List.sorted_insertionSort leByDate (coerceRows rows)
  · exact listMin_perm
      ((List.perm_insertionSort leByDate (coerceRows rows)).map Prod.snd)
  · exact listMax_perm
      ((List.perm_insertionSort leByDate (coerceRows rows)).map Prod.snd)

theorem create_chart_sorted_and_pinned_witness :
    ("s.csv" ∈ (["s.csv"] : List String)) ∧
    ∃ c, (create_chart "pH" "s.csv" ["s.csv"]
        [((5 : Int), some (2 : ℚ)), ((1 : Int), some (7 : ℚ))]).1 =
        some c ∧
      c.series.Perm (coerceRows
        [((5 : Int), some (2 : ℚ)), ((1 : Int), some (7 : ℚ))]) ∧
      List.Sorted leByDate c.series ∧
      c.yMin = listMin ((coerceRows
        [((5 : Int), some (2 : ℚ)), ((1 : Int), some (7 : ℚ))]).map
          Prod.snd) ∧
      c.yMax = listMax ((coerceRows
        [((5 : Int), some (2 : ℚ)), ((1 : Int), some (7 : ℚ))]).map
          Prod.snd) :=
  ⟨by decide,
   create_chart_sorted_and_pinned "pH" "s.csv" ["s.csv"]
     [((5 : Int), some (2 : ℚ)), ((1 : Int), some (7 : ℚ))] (by decide)⟩

/-- C3 (code-bug evaluation): with two candidates that both fully
succeed, the sequence of progress values `run_analysis` writes is not
non-decreasing — the full trace is `[5, 15, 15, 85/3, 125/3, 55, 85/3,
125/3, 55, 95, 100]`: after candidate 0 completes at 55, the first
update for candidate 1 writes `15 + 1*80/2/3 = 85/3 < 55`, because the
per-stage formula divides the `i*80/n` term by 3 while the
per-candidate completion formula does not.  The trace does end at
exactly 100 on Completed, as the claim states. -/
theorem progress_trace_decreases :
    progressTrace (.ok [("pH", .ok), ("Lead", .ok)]) =
      [5, 15, 15, 85/3, 125/3, 55, 85/3, 125/3, 55, 95, 100] ∧
    (85/3 : ℚ) < 55 := by
  constructor
  · norm_num [progressTrace, candUpdates, stage1Progress, stage2Progress,
      stage3Progress, candDoneProgress, List.enum, List.enumFrom]
  · norm_num

/-- C5: exceptions inside a candidate's three stages are caught and
treated as a skip, never aborting the run — whenever the Retriever call
succeeds the run terminates in `completed`, whatever each candidate's
outcome; the run terminates in `error` exactly when the Retriever call
itself raises, and then the raised message is retained in the job
message. -/
theorem run_analysis_error_only_from_search
    (res : Except String (List (String × CandOutcome))) (st : JobState) :
    (∀ cands, res = .ok cands →
      (run_analysis res st).status = .completed) ∧
    ((run_analysis res st).status = .error ↔ ∃ e, res = .error e) ∧
    (∀ e, res = .error e →
      (run_analysis res st).message = "Analysis failed: " ++ e) := by
  cases res with
  | error e =>
    refine ⟨by simp, ?_, by simp [run_analysis, update_analysis_status]⟩
    simp [run_analysis, update_analysis_status]
  | ok cands =>
    refine ⟨by simp [run_analysis, update_analysis_status], ?_, by simp⟩
    simp [run_analysis, update_analysis_status]

theorem run_analysis_error_only_from_search_witness :
    ((Except.error "boom" :
        Except String (List (String × CandOutcome))) = .error "boom") ∧
    (run_analysis (.error "boom") initial_state).status = .error ∧
    (run_analysis (.error "boom") initial_state).message =
      "Analysis failed: boom" :=
  ⟨rfl,
   (run_analysis_error_only_from_search (.error "boom")
      initial_state).2.1.mpr ⟨"boom", rfl⟩,
   (run_analysis_error_only_from_search (.error "boom")
      initial_state).2.2 "boom" rfl⟩

/-- C4 counterexample: a start request issued in a non-Running status
does not always reset the state and launch a run — with status `idle`
and a blank scenario the handler rejects, leaves the state unchanged and
starts no background thread. -/
theorem analyze_nonrunning_no_launch :
    initial_state.status ≠ .running ∧
    (analyze initial_state (some "")).1 = .noScenario ∧
    (analyze initial_state (some "")).2.1 = initial_state ∧
    (analyze initial_state (some "")).2.2 = false := by
  decide

/-- C4 (amended): a start request issued while status is Running is
rejected with AlreadyRunning and leaves every field of the JobState
unchanged; in any other status, a request whose scenario is non-blank
after stripping resets the state (retaining the scenario) and launches a
run, while a blank-scenario request is rejected without reset or
launch. -/
theorem analyze_start_contract (st : JobState) (body : Option String) :
    (st.status = .running →
      analyze st body = (.alreadyRunning, st, false)) ∧
    (st.status ≠ .running → pyStrip (body.getD "") = "" →
      analyze st body = (.noScenario, st, false)) ∧
    (st.status ≠ .running → pyStrip (body.getD "") ≠ "" →
      analyze st body =
        (.started (pyStrip (body.getD "")),
         { initial_state with
            current_scenario := pyStrip (body.getD "") },
         true)) := by
  refine ⟨fun hr => by simp [analyze, hr],
    fun hr he => by simp [analyze, hr, he],
    fun hr he => by simp [analyze, hr, he, reset_analysis_state]⟩

theorem analyze_start_contract_witness :
    (({ initial_state with status := .running } : JobState).status =
      .running ∧
     analyze { initial_state with status := .running } (some "x") =
      (.alreadyRunning, { initial_state with status := .running },
       false)) ∧
    (initial_state.status ≠ .running ∧
     pyStrip ((some "gulf water" : Option String).getD "") ≠ "" ∧
     analyze initial_state (some "gulf water") =
      (.started "gulf water",
       { initial_state with current_scenario := "gulf water" }, true)) :=
  ⟨⟨rfl, (analyze_start_contract _ (some "x")).1 rfl⟩,
   ⟨by decide, by decide,
    (analyze_start_contract initial_state (some "gulf water")).2.2
      (by decide) (by decide)⟩⟩

/-- C10: a start request whose scenario is empty or blank after
stripping whitespace is rejected with an error response (AlreadyRunning
or NoScenario), starts no background analysis, and leaves the JobState
unchanged. -/
theorem analyze_blank_scenario_rejected (st : JobState)
    (body : Option String) (h : pyStrip (body.getD "") = "") :
    ((analyze st body).1 = .alreadyRunning ∨
      (analyze st body).1 = .noScenario) ∧
    (analyze st body).2.1 = st ∧ (analyze st body).2.2 = false := by
  unfold analyze
  by_cases hr : st.status = .running
  · simp [hr]
  · simp [hr, h]

theorem analyze_blank_scenario_rejected_witness :
    pyStrip ((some " \t " : Option String).getD "") = "" ∧
    (((analyze initial_state (some " \t ")).1 = .alreadyRunning ∨
      (analyze initial_state (some " \t ")).1 = .noScenario) ∧
     (analyze initial_state (some " \t ")).2.1 = initial_state ∧
     (analyze initial_state (some " \t ")).2.2 = false) :=
  ⟨by decide,
   analyze_blank_scenario_rejected initial_state (some " \t ")
     (by decide)⟩

/-- Retriever environment used by the C6 refutation: a one-entry
catalog, no exclusions, and an identity similarity-search capability. -/
def demoEnv : RetrieverEnv := ⟨["pH"], [], fun _ vs => vs⟩

/-- C6 counterexample: the vector index is not built at most once per
process — starting from a state where one build has already happened,
another `search` call runs `Chroma.from_texts` again, raising the build
count to 2. -/
theorem search_rebuilds_index_each_call :
    (search demoEnv "water clarity" 0).2 = 1 ∧
    (search demoEnv "water clarity"
      (search demoEnv "water clarity" 0).2).2 = 2 :=
  ⟨rfl, rfl⟩

/-- C6 (amended): every `search` call that passes the catalog assertions
rebuilds (and re-persists) the vector index — the build count rises by
exactly one per successful call, and never falls. -/
theorem search_builds_on_every_successful_call (env : RetrieverEnv)
    (scene : String) (b : ℕ) :
    (∀ rs, (search env scene b).1 = .ok rs →
      (search env scene b).2 = b + 1) ∧
    ((search env scene b).2 = b ∨ (search env scene b).2 = b + 1) := by
  unfold search
  split
  · simp
  · dsimp only
    split
    · simp
    · simp

theorem search_builds_on_every_successful_call_witness :
    (search demoEnv "estuary" 0).1 = .ok ["pH"] ∧
    (search demoEnv "estuary" 0).2 = 0 + 1 :=
  ⟨rfl,
   (search_builds_on_every_successful_call demoEnv "estuary" 0).1
     ["pH"] rfl⟩

end Gulf
